import Mathlib

/-!
Shallow embedding of `deen_api/client.py` (ImaniroDeenAPIClient), the single
source file of the `deen-api-python-client` repository, together with the
parts of its data model (`models.py`) and exception hierarchy
(`exceptions.py`) that the client imports but that are not in the sources;
those are modelled from the specification and marked as such.

HTTP transport is represented by a value of type `Except String Response`:
either the response the HTTP layer produced, or the textual description of a
transport-level failure (the string of the caught `RequestException`).
Python dictionaries are modelled as association lists with Python's
insertion/override semantics (`dinsert` / `dupdate` / `dget`).
-/

namespace DeenApi

/-- JSON values, as decoded from a response body or placed in a request body.
Numbers are modelled as integers (the client only ever sends `maxLimit`,
a Python `int`). -/
inductive Json where
  | null : Json
  | bool (b : Bool) : Json
  | num (n : Int) : Json
  | str (s : String) : Json
  | arr (xs : List Json) : Json
  | obj (fields : List (String × Json)) : Json
deriving Repr

/-- Modelled from the spec: the exception taxonomy of the missing
`exceptions.py` (AuthenticationError, InsufficientBalanceError,
NotFoundError, RateLimitError, ServerError, DeenAPIError), plus Python's
builtin `ValueError` which `get_hadiths` raises for an invalid `max_limit`
(the spec's InvalidArgument kind).  Each carries its message string. -/
inductive DeenError where
  | authenticationError (msg : String) : DeenError
  | insufficientBalanceError (msg : String) : DeenError
  | notFoundError (msg : String) : DeenError
  | rateLimitError (msg : String) : DeenError
  | serverError (msg : String) : DeenError
  | deenAPIError (msg : String) : DeenError
  | valueError (msg : String) : DeenError
deriving Repr, DecidableEq

/-- A raw transport response: numeric status code, raw body text, and the
JSON decoding of that body (the client only reads `.json()` on bodies the
service sends as JSON; a malformed body is a transport-level failure and is
modelled on the `Except.error` side of the transport). -/
structure Response where
  status_code : Nat
  text : String
  body : Json

/-- The transport outcome the HTTP layer hands back for one request:
a response, or the description of a transport failure. -/
def Transport := Except String Response

/-- Python dict lookup on the association-list model. -/
def dget : List (String × Json) → String → Option Json
  | [], _ => none
  | (k, v) :: rest, key => if k = key then some v else dget rest key

/-- Python `d[k] = v`: replace the value in place if the key exists
(keeping its position), otherwise append the pair at the end. -/
def dinsert : List (String × Json) → String → Json → List (String × Json)
  | [], key, v => [(key, v)]
  | (k, w) :: rest, key, v =>
      if k = key then (key, v) :: rest else (k, w) :: dinsert rest key v

/-- Python `d.update(kvs)`: apply each binding of `kvs` in order. -/
def dupdate (d : List (String × Json)) (kvs : List (String × Json)) :
    List (String × Json) :=
  kvs.foldl (fun acc kv => dinsert acc kv.1 kv.2) d

/-- The binding a list of keyword arguments ultimately gives a key: the
value of the LAST pair with that key (later pairs override earlier ones,
as in `dict.update`). -/
def lastLookup : List (String × Json) → String → Option Json
  | [], _ => none
  | kv :: rest, key =>
      match lastLookup rest key with
      | some v => some v
      | none => if kv.1 = key then some kv.2 else none

/-- Modelled from the spec: the `Hadith` record of the missing `models.py`.
Fields book, hadith number, narrator, category, authenticity, language and
text body, each decoded from the service's camelCase JSON keys; absent or
non-string fields decode to `none`. -/
structure Hadith where
  book : Option String
  hadith_number : Option String
  narrator : Option String
  category : Option String
  authenticity : Option String
  language : Option String
  text : Option String
deriving Repr, DecidableEq

/-- Read a string-valued field of a JSON object. -/
def getStr (j : Json) (key : String) : Option String :=
  match j with
  | .obj fields =>
      match dget fields key with
      | some (.str s) => some s
      | _ => none
  | _ => none

/-- Read a field of a JSON object. -/
def getField (j : Json) (key : String) : Option Json :=
  match j with
  | .obj fields => dget fields key
  | _ => none

/-- Modelled from the spec: `Hadith.from_dict` of the missing `models.py`,
decoding one record object with the camelCase field mapping (`book`,
`hadithNumber`, `narrator`, `category`, `authenticity`, `language`,
`text`).  The mapping is a fixed function of the JSON object alone. -/
def Hadith.from_dict (j : Json) : Hadith :=
  { book := getStr j "book"
    hadith_number := getStr j "hadithNumber"
    narrator := getStr j "narrator"
    category := getStr j "category"
    authenticity := getStr j "authenticity"
    language := getStr j "language"
    text := getStr j "text" }

/-- Modelled from the spec: the `APIResponse` envelope of the missing
`models.py`, exposing the sequence of raw record objects under `data`. -/
structure APIResponse where
  data : List Json
deriving Repr

/-- Modelled from the spec: `APIResponse.from_dict` of the missing
`models.py`; the success envelope carries its record list in the `data`
field. -/
def APIResponse.from_dict (j : Json) : APIResponse :=
  { data :=
      match getField j "data" with
      | some (.arr xs) => xs
      | _ => [] }

/-- Python `str.rstrip` with `'/'`: drop every trailing slash. -/
def rstrip_slash (s : String) : String :=
  ⟨((s.data.reverse).dropWhile (fun c => c = '/')).reverse⟩

/-- The client value: configuration stored by `__init__`.  The session's
default headers are fixed at construction from the API key. -/
structure ImaniroDeenAPIClient where
  api_key : String
  base_url : String
  session_headers : List (String × String)

/-- The default production base URL of the `base_url` parameter. -/
def default_base_url : String := "https://deen-api.imaniro.com/api/v1"

/-- `__init__`: store the API key, store the base URL with trailing slashes
stripped, and set the session headers. -/
def mk_client (api_key : String) (base_url : String) : ImaniroDeenAPIClient :=
  { api_key := api_key
    base_url := rstrip_slash base_url
    session_headers :=
      [("Content-Type", "application/json"), ("X-API-Key", api_key)] }

/-- `__init__` with the `base_url` parameter left at its default. -/
def mk_client_default (api_key : String) : ImaniroDeenAPIClient :=
  mk_client api_key default_base_url

/-- `_handle_response`: map the status code of a transport response to a
decoded JSON body or a raised exception, in the source's branch order. -/
def handle_response (resp : Response) : Except DeenError Json :=
  if resp.status_code = 401 then
    .error (.authenticationError "Invalid API key")
  else if resp.status_code = 402 then
    .error (.insufficientBalanceError "Insufficient balance to process request")
  else if resp.status_code = 404 then
    .error (.notFoundError "Resource not found")
  else if resp.status_code = 429 then
    .error (.rateLimitError "Rate limit exceeded")
  else if resp.status_code ≥ 500 then
    .error (.serverError "Server error occurred")
  else if resp.status_code ≠ 200 then
    .error (.deenAPIError
      ("API error: " ++ toString resp.status_code ++ " - " ++ resp.text))
  else
    .ok resp.body

/-- One outgoing HTTP request as the client issues it: the URL posted to
and the JSON body sent. -/
structure RequestRecord where
  url : String
  request_body : List (String × Json)
deriving Repr

/-- `_make_request`: POST the params to `{base_url}/{endpoint}`; a
transport failure (`requests.exceptions.RequestException`) is re-raised as
`DeenAPIError` wrapping its description, any exception that
`_handle_response` raises propagates unchanged (the deen exceptions are not
`RequestException`s).  Returns the parsed envelope together with the list
of requests that went out on the wire. -/
def make_request (c : ImaniroDeenAPIClient) (endpoint : String)
    (params : List (String × Json)) (transport : Except String Response) :
    Except DeenError APIResponse × List RequestRecord :=
  let url := c.base_url ++ "/" ++ endpoint
  match transport with
  | .error e =>
      (.error (.deenAPIError ("Request failed: " ++ e)), [⟨url, params⟩])
  | .ok resp =>
      match handle_response resp with
      | .error err => (.error err, [⟨url, params⟩])
      | .ok j => (.ok (APIResponse.from_dict j), [⟨url, params⟩])

/-- The request body `get_hadiths` builds before merging `kwargs`: each of
the five optional filters only when provided, then always `language` and
`maxLimit`, in the source's order. -/
def named_params (book hadith_number narrator category authenticity :
    Option String) (language : String) (max_limit : Int) :
    List (String × Json) :=
  let params : List (String × Json) := []
  let params := match book with
    | some b => dinsert params "book" (.str b)
    | none => params
  let params := match hadith_number with
    | some h => dinsert params "hadithNumber" (.str h)
    | none => params
  let params := match narrator with
    | some n => dinsert params "narrator" (.str n)
    | none => params
  let params := match category with
    | some ca => dinsert params "category" (.str ca)
    | none => params
  let params := match authenticity with
    | some a => dinsert params "authenticity" (.str a)
    | none => params
  let params := dinsert params "language" (.str language)
  let params := dinsert params "maxLimit" (.num max_limit)
  params

/-- The full request body of `get_hadiths`: the named params with the
caller's extra keyword arguments merged last via `params.update(kwargs)`. -/
def build_params (book hadith_number narrator category authenticity :
    Option String) (language : String) (max_limit : Int)
    (kwargs : List (String × Json)) : List (String × Json) :=
  dupdate
    (named_params book hadith_number narrator category authenticity
      language max_limit) kwargs

/-- `get_hadiths`: validate `max_limit`, build the body, make the request,
decode every element of the envelope's `data` list into a `Hadith`.
Returns the result together with the requests issued on the wire. -/
def get_hadiths (c : ImaniroDeenAPIClient)
    (book hadith_number narrator category authenticity : Option String)
    (language : String) (max_limit : Int) (kwargs : List (String × Json))
    (transport : Except String Response) :
    Except DeenError (List Hadith) × List RequestRecord :=
  if max_limit > 500 then
    (.error (.valueError "max_limit cannot exceed 500"), [])
  else if max_limit < 1 then
    (.error (.valueError "max_limit must be at least 1"), [])
  else
    let params := build_params book hadith_number narrator category
      authenticity language max_limit kwargs
    match make_request c "hadiths" params transport with
    | (.error e, reqs) => (.error e, reqs)
    | (.ok resp, reqs) => (.ok (resp.data.map Hadith.from_dict), reqs)

/-- `check_status`: GET `{base_url}/status`; on 200 return the decoded
JSON body, on any other status raise `DeenAPIError` with the status code,
on a transport failure raise `DeenAPIError` wrapping its description
(the `DeenAPIError` raised in the `try` block is not a `RequestException`,
so the `except` clause does not intercept it; the base URL is read but the
response itself arrives through the transport value). -/
def check_status (_c : ImaniroDeenAPIClient)
    (transport : Except String Response) : Except DeenError Json :=
  match transport with
  | .error e =>
      .error (.deenAPIError ("Status check request failed: " ++ e))
  | .ok resp =>
      if resp.status_code = 200 then .ok resp.body
      else
        .error (.deenAPIError
          ("Status check failed: " ++ toString resp.status_code))

/-- The method `get_hadiths` in state-passing form: the body reads
`self.base_url` and `self.session` but assigns no attribute of `self`, so
the client value it leaves behind is the one it received. -/
def get_hadiths_method (c : ImaniroDeenAPIClient)
    (book hadith_number narrator category authenticity : Option String)
    (language : String) (max_limit : Int) (kwargs : List (String × Json))
    (transport : Except String Response) :
    (Except DeenError (List Hadith) × List RequestRecord) ×
      ImaniroDeenAPIClient :=
  (get_hadiths c book hadith_number narrator category authenticity language
    max_limit kwargs transport, c)

/-- The method `check_status` in state-passing form: it assigns no
attribute of `self`, so the client value it leaves behind is the one it
received. -/
def check_status_method (c : ImaniroDeenAPIClient)
    (transport : Except String Response) :
    Except DeenError Json × ImaniroDeenAPIClient :=
  (check_status c transport, c)

/-! ## Lemmas about the dictionary model -/

theorem dget_dinsert_self (d : List (String × Json)) (k : String) (v : Json) :
    dget (dinsert d k v) k = some v := by
  induction d with
  | nil => simp [dinsert, dget]
  | cons kv rest ih =>
      by_cases h : kv.1 = k
      · simp [dinsert, h, dget]
      · simp [dinsert, h, dget, ih]

theorem dget_dinsert_ne (d : List (String × Json)) (k : String) (v : Json)
    (key : String) (h : k ≠ key) : dget (dinsert d k v) key = dget d key := by
  induction d with
  | nil => simp [dinsert, dget, h]
  | cons kv rest ih =>
      by_cases hk : kv.1 = k
      · simp [dinsert, hk, dget, h]
      · simp [dinsert, hk, dget, ih]

theorem dget_dupdate (d : List (String × Json)) (kvs : List (String × Json))
    (key : String) :
    dget (dupdate d kvs) key =
      match lastLookup kvs key with
      | some v => some v
      | none => dget d key := by
  induction kvs generalizing d with
  | nil => simp [dupdate, lastLookup]
  | cons kv rest ih =>
      have step : dupdate d (kv :: rest) = dupdate (dinsert d kv.1 kv.2) rest := rfl
      rw [step, ih]
      rcases h : lastLookup rest key with _ | v
      · simp [lastLookup, h]
        by_cases hk : kv.1 = key
        · subst hk; simp [dget_dinsert_self]
        · simp [hk, dget_dinsert_ne _ _ _ _ hk]
      · simp [lastLookup, h]

theorem lastLookup_eq_none_of_not_mem (kvs : List (String × Json))
    (key : String) (h : key ∉ kvs.map Prod.fst) : lastLookup kvs key = none := by
  induction kvs with
  | nil => rfl
  | cons kv rest ih =>
      simp only [List.map_cons, List.mem_cons] at h
      push_neg at h
      simp [lastLookup, ih h.2, Ne.symm h.1]

/-! ## Lemmas reducing the client operations -/

theorem make_request_snd (c : ImaniroDeenAPIClient) (ep : String)
    (params : List (String × Json)) (t : Except String Response) :
    (make_request c ep params t).2 = [⟨c.base_url ++ "/" ++ ep, params⟩] := by
  cases t with
  | error e => rfl
  | ok resp => rcases h : handle_response resp with e | j <;> simp [make_request, h]

theorem make_request_ok_fst (c : ImaniroDeenAPIClient) (ep : String)
    (params : List (String × Json)) (resp : Response) :
    (make_request c ep params (.ok resp)).1 =
      (handle_response resp).map APIResponse.from_dict := by
  rcases h : handle_response resp with e | j <;> simp [make_request, h, Except.map]

theorem make_request_error_fst (c : ImaniroDeenAPIClient) (ep : String)
    (params : List (String × Json)) (e : String) :
    (make_request c ep params (.error e)).1 =
      .error (.deenAPIError ("Request failed: " ++ e)) := rfl

theorem get_hadiths_valid_eq (c : ImaniroDeenAPIClient)
    (book hadith_number narrator category authenticity : Option String)
    (language : String) (max_limit : Int) (kwargs : List (String × Json))
    (transport : Except String Response)
    (h1 : 1 ≤ max_limit) (h2 : max_limit ≤ 500) :
    get_hadiths c book hadith_number narrator category authenticity language
        max_limit kwargs transport =
      ((make_request c "hadiths"
          (build_params book hadith_number narrator category authenticity
            language max_limit kwargs) transport).1.map
        (fun resp => resp.data.map Hadith.from_dict),
       (make_request c "hadiths"
          (build_params book hadith_number narrator category authenticity
            language max_limit kwargs) transport).2) := by
  unfold get_hadiths
  rw [if_neg (by omega), if_neg (by omega)]
  rcases h : make_request c "hadiths"
      (build_params book hadith_number narrator category authenticity
        language max_limit kwargs) transport with ⟨res, reqs⟩
  cases res <;> simp [h, Except.map]

theorem handle_response_200 (resp : Response) (h : resp.status_code = 200) :
    handle_response resp = .ok resp.body := by
  simp [handle_response, h]

theorem handle_response_401 (resp : Response) (h : resp.status_code = 401) :
    handle_response resp = .error (.authenticationError "Invalid API key") := by
  simp [handle_response, h]

theorem handle_response_402 (resp : Response) (h : resp.status_code = 402) :
    handle_response resp =
      .error (.insufficientBalanceError
        "Insufficient balance to process request") := by
  simp [handle_response, h]

theorem handle_response_404 (resp : Response) (h : resp.status_code = 404) :
    handle_response resp = .error (.notFoundError "Resource not found") := by
  simp [handle_response, h]

theorem handle_response_429 (resp : Response) (h : resp.status_code = 429) :
    handle_response resp = .error (.rateLimitError "Rate limit exceeded") := by
  simp [handle_response, h]

theorem handle_response_ge500 (resp : Response) (h : 500 ≤ resp.status_code) :
    handle_response resp = .error (.serverError "Server error occurred") := by
  unfold handle_response
  rw [if_neg (by omega), if_neg (by omega), if_neg (by omega),
    if_neg (by omega), if_pos h]

theorem handle_response_other (resp : Response)
    (h200 : resp.status_code ≠ 200) (h401 : resp.status_code ≠ 401)
    (h402 : resp.status_code ≠ 402) (h404 : resp.status_code ≠ 404)
    (h429 : resp.status_code ≠ 429) (h500 : resp.status_code < 500) :
    handle_response resp =
      .error (.deenAPIError
        ("API error: " ++ toString resp.status_code ++ " - " ++ resp.text)) := by
  unfold handle_response
  rw [if_neg h401, if_neg h402, if_neg h404, if_neg h429,
    if_neg (by omega), if_pos h200]

theorem handle_response_ne_valueError (resp : Response) (m : String) :
    handle_response resp ≠ .error (.valueError m) := by
  unfold handle_response
  split_ifs <;> simp

theorem head_dropWhile_false (p : Char → Bool) (l : List Char) :
    ∀ ch, (l.dropWhile p).head? = some ch → p ch = false := by
  induction l with
  | nil => intro ch h; simp [List.dropWhile] at h
  | cons a rest ih =>
      intro ch h
      by_cases hp : p a
      · rw [List.dropWhile_cons_of_pos hp] at h
        exact ih ch h
      · rw [List.dropWhile_cons_of_neg hp] at h
        simp at h
        subst h
        simpa using hp

theorem rstrip_data (s : String) :
    (rstrip_slash s).data =
      (s.data.reverse.dropWhile (fun c => c = '/')).reverse := rfl

theorem rstrip_slash_recover (s : String) :
    (rstrip_slash s).data ++
        List.replicate
          ((s.data.reverse.takeWhile (fun c => c = '/')).length) '/' =
      s.data := by
  rw [rstrip_data]
  have hmem : ∀ b ∈ s.data.reverse.takeWhile (fun c => c = '/'), b = '/' :=
    fun b hb => by simpa using List.mem_takeWhile_imp hb
  conv_lhs => rw [← List.reverse_replicate, ← List.eq_replicate_of_mem hmem]
  rw [← List.reverse_append, List.takeWhile_append_dropWhile,
    List.reverse_reverse]

theorem rstrip_slash_no_trailing (s : String) :
    ∀ ch, (rstrip_slash s).data.getLast? = some ch → ch ≠ '/' := by
  intro ch h
  rw [rstrip_data, List.getLast?_reverse] at h
  have := head_dropWhile_false (fun c => c = '/') s.data.reverse ch h
  simpa using this

theorem dget_named_params_book (book hadith_number narrator category
    authenticity : Option String) (language : String) (max_limit : Int) :
    dget (named_params book hadith_number narrator category authenticity
      language max_limit) "book" = book.map Json.str := by
  cases book <;> cases hadith_number <;> cases narrator <;> cases category <;>
    cases authenticity <;>
    simp [named_params, dget_dinsert_self, dget_dinsert_ne, dget]

theorem dget_named_params_hadithNumber (book hadith_number narrator category
    authenticity : Option String) (language : String) (max_limit : Int) :
    dget (named_params book hadith_number narrator category authenticity
      language max_limit) "hadithNumber" = hadith_number.map Json.str := by
  cases book <;> cases hadith_number <;> cases narrator <;> cases category <;>
    cases authenticity <;>
    simp [named_params, dget_dinsert_self, dget_dinsert_ne, dget]

theorem dget_named_params_narrator (book hadith_number narrator category
    authenticity : Option String) (language : String) (max_limit : Int) :
    dget (named_params book hadith_number narrator category authenticity
      language max_limit) "narrator" = narrator.map Json.str := by
  cases book <;> cases hadith_number <;> cases narrator <;> cases category <;>
    cases authenticity <;>
    simp [named_params, dget_dinsert_self, dget_dinsert_ne, dget]

theorem dget_named_params_category (book hadith_number narrator category
    authenticity : Option String) (language : String) (max_limit : Int) :
    dget (named_params book hadith_number narrator category authenticity
      language max_limit) "category" = category.map Json.str := by
  cases book <;> cases hadith_number <;> cases narrator <;> cases category <;>
    cases authenticity <;>
    simp [named_params, dget_dinsert_self, dget_dinsert_ne, dget]

theorem dget_named_params_authenticity (book hadith_number narrator category
    authenticity : Option String) (language : String) (max_limit : Int) :
    dget (named_params book hadith_number narrator category authenticity
      language max_limit) "authenticity" = authenticity.map Json.str := by
  cases book <;> cases hadith_number <;> cases narrator <;> cases category <;>
    cases authenticity <;>
    simp [named_params, dget_dinsert_self, dget_dinsert_ne, dget]

theorem dget_named_params_language (book hadith_number narrator category
    authenticity : Option String) (language : String) (max_limit : Int) :
    dget (named_params book hadith_number narrator category authenticity
      language max_limit) "language" = some (.str language) := by
  simp [named_params, dget_dinsert_self, dget_dinsert_ne]

theorem dget_named_params_maxLimit (book hadith_number narrator category
    authenticity : Option String) (language : String) (max_limit : Int) :
    dget (named_params book hadith_number narrator category authenticity
      language max_limit) "maxLimit" = some (.num max_limit) := by
  simp [named_params, dget_dinsert_self]

/-! ## Claim theorems -/

/-- C7: with no filters supplied beyond the defaults
(`language = "English"`, `max_limit = 1`, no extra keyword arguments), the
outgoing request body of search is exactly the two-key mapping
`{"language": "English", "maxLimit": 1}`, with no other keys: the single
request `get_hadiths` issues carries exactly that body. -/
theorem build_params_default_exact (c : ImaniroDeenAPIClient)
    (transport : Except String Response) :
    build_params none none none none none "English" 1 [] =
        [("language", Json.str "English"), ("maxLimit", Json.num 1)] ∧
      (get_hadiths c none none none none none "English" 1 [] transport).2 =
        [⟨c.base_url ++ "/hadiths",
          [("language", Json.str "English"), ("maxLimit", Json.num 1)]⟩] := by
  refine ⟨rfl, ?_⟩
  rw [get_hadiths_valid_eq c none none none none none "English" 1 [] transport
    (by decide) (by decide)]
  rw [make_request_snd, String.append_assoc]
  rfl

/-- C2: for every `max_limit` in `[1, 500]` the search issues exactly one
network request; for `max_limit` above 500 or below 1 it fails with the
`ValueError` (the spec's InvalidArgument kind) carrying the source's
message, and issues zero network requests. -/
theorem get_hadiths_max_limit_validation (c : ImaniroDeenAPIClient)
    (book hadith_number narrator category authenticity : Option String)
    (language : String) (max_limit : Int) (kwargs : List (String × Json))
    (transport : Except String Response) :
    (1 ≤ max_limit → max_limit ≤ 500 →
      ((get_hadiths c book hadith_number narrator category authenticity
        language max_limit kwargs transport).2).length = 1) ∧
    (500 < max_limit →
      get_hadiths c book hadith_number narrator category authenticity
          language max_limit kwargs transport =
        (.error (.valueError "max_limit cannot exceed 500"), [])) ∧
    (max_limit < 1 →
      get_hadiths c book hadith_number narrator category authenticity
          language max_limit kwargs transport =
        (.error (.valueError "max_limit must be at least 1"), [])) := by
  refine ⟨fun h1 h2 => ?_, fun h => ?_, fun h => ?_⟩
  · rw [get_hadiths_valid_eq c book hadith_number narrator category
      authenticity language max_limit kwargs transport h1 h2]
    simp [make_request_snd]
  · unfold get_hadiths
    rw [if_pos (by omega)]
  · unfold get_hadiths
    rw [if_neg (by omega), if_pos (by omega)]

/-- Witness for C2 at `max_limit` 250 (in range), 501 and 0 (out of
range). -/
theorem get_hadiths_max_limit_validation_witness :
    ((get_hadiths (mk_client "k" "u") none none none none none "English" 250
      [] (.error "down")).2).length = 1 ∧
    get_hadiths (mk_client "k" "u") none none none none none "English" 501 []
        (.error "down") =
      (.error (.valueError "max_limit cannot exceed 500"), []) ∧
    get_hadiths (mk_client "k" "u") none none none none none "English" 0 []
        (.error "down") =
      (.error (.valueError "max_limit must be at least 1"), []) := by
  refine ⟨?_, ?_, ?_⟩
  · exact (get_hadiths_max_limit_validation (mk_client "k" "u") none none none
      none none "English" 250 [] (.error "down")).1 (by decide) (by decide)
  · exact (get_hadiths_max_limit_validation (mk_client "k" "u") none none none
      none none "English" 501 [] (.error "down")).2.1 (by decide)
  · exact (get_hadiths_max_limit_validation (mk_client "k" "u") none none none
      none none "English" 0 [] (.error "down")).2.2 (by decide)

/-- C1: for every transport response processed by a search call, the
outcome is determined by the status code exactly as the table states:
200 decodes the JSON body as the success envelope, 401/402/404/429 raise
the four dedicated failures with their fixed messages, any status ≥ 500
raises the server failure, and any other non-200 status raises the generic
`DeenAPIError` whose message contains both the numeric status code and the
raw response body text. -/
theorem get_hadiths_status_code_mapping (c : ImaniroDeenAPIClient)
    (book hadith_number narrator category authenticity : Option String)
    (language : String) (max_limit : Int) (kwargs : List (String × Json))
    (resp : Response) (h1 : 1 ≤ max_limit) (h2 : max_limit ≤ 500) :
    (resp.status_code = 200 →
      (get_hadiths c book hadith_number narrator category authenticity
        language max_limit kwargs (.ok resp)).1 =
        .ok ((APIResponse.from_dict resp.body).data.map Hadith.from_dict)) ∧
    (resp.status_code = 401 →
      (get_hadiths c book hadith_number narrator category authenticity
        language max_limit kwargs (.ok resp)).1 =
        .error (.authenticationError "Invalid API key")) ∧
    (resp.status_code = 402 →
      (get_hadiths c book hadith_number narrator category authenticity
        language max_limit kwargs (.ok resp)).1 =
        .error (.insufficientBalanceError
          "Insufficient balance to process request")) ∧
    (resp.status_code = 404 →
      (get_hadiths c book hadith_number narrator category authenticity
        language max_limit kwargs (.ok resp)).1 =
        .error (.notFoundError "Resource not found")) ∧
    (resp.status_code = 429 →
      (get_hadiths c book hadith_number narrator category authenticity
        language max_limit kwargs (.ok resp)).1 =
        .error (.rateLimitError "Rate limit exceeded")) ∧
    (500 ≤ resp.status_code →
      (get_hadiths c book hadith_number narrator category authenticity
        language max_limit kwargs (.ok resp)).1 =
        .error (.serverError "Server error occurred")) ∧
    (resp.status_code ≠ 200 → resp.status_code ≠ 401 →
     resp.status_code ≠ 402 → resp.status_code ≠ 404 →
     resp.status_code ≠ 429 → resp.status_code < 500 →
      (get_hadiths c book hadith_number narrator category authenticity
        language max_limit kwargs (.ok resp)).1 =
        .error (.deenAPIError
          ("API error: " ++ toString resp.status_code ++ " - " ++
            resp.text)) ∧
      (∃ p q, "API error: " ++ toString resp.status_code ++ " - " ++
          resp.text = p ++ toString resp.status_code ++ q) ∧
      (∃ p q, "API error: " ++ toString resp.status_code ++ " - " ++
          resp.text = p ++ resp.text ++ q)) := by
  have hkey : (get_hadiths c book hadith_number narrator category
      authenticity language max_limit kwargs (.ok resp)).1 =
      ((handle_response resp).map APIResponse.from_dict).map
        (fun r => r.data.map Hadith.from_dict) := by
    rw [get_hadiths_valid_eq c book hadith_number narrator category
      authenticity language max_limit kwargs (.ok resp) h1 h2]
    rw [make_request_ok_fst]
  refine ⟨fun h => ?_, fun h => ?_, fun h => ?_, fun h => ?_, fun h => ?_,
    fun h => ?_, fun h200 h401 h402 h404 h429 h500 => ?_⟩
  · rw [hkey, handle_response_200 resp h]; rfl
  · rw [hkey, handle_response_401 resp h]; rfl
  · rw [hkey, handle_response_402 resp h]; rfl
  · rw [hkey, handle_response_404 resp h]; rfl
  · rw [hkey, handle_response_429 resp h]; rfl
  · rw [hkey, handle_response_ge500 resp h]; rfl
  · refine ⟨?_, ⟨"API error: ", " - " ++ resp.text, ?_⟩,
      ⟨"API error: " ++ toString resp.status_code ++ " - ", "", ?_⟩⟩
    · rw [hkey, handle_response_other resp h200 h401 h402 h404 h429 h500]; rfl
    · rw [String.append_assoc]
    · rw [String.append_empty]

/-- Witness for C1 at statuses 200, 401, 500 and the unmapped 403 with a
concrete body. -/
theorem get_hadiths_status_code_mapping_witness :
    (get_hadiths (mk_client "k" "u") none none none none none "English" 1 []
      (.ok ⟨200, "", .obj [("data", .arr [])]⟩)).1 = .ok [] ∧
    (get_hadiths (mk_client "k" "u") none none none none none "English" 1 []
      (.ok ⟨401, "", .null⟩)).1 =
        .error (.authenticationError "Invalid API key") ∧
    (get_hadiths (mk_client "k" "u") none none none none none "English" 1 []
      (.ok ⟨500, "", .null⟩)).1 =
        .error (.serverError "Server error occurred") ∧
    (get_hadiths (mk_client "k" "u") none none none none none "English" 1 []
      (.ok ⟨403, "forbidden", .null⟩)).1 =
        .error (.deenAPIError "API error: 403 - forbidden") := by
  refine ⟨?_, ?_, ?_, ?_⟩
  · exact (get_hadiths_status_code_mapping (mk_client "k" "u") none none none
      none none "English" 1 [] ⟨200, "", .obj [("data", .arr [])]⟩
      (by decide) (by decide)).1 rfl
  · exact (get_hadiths_status_code_mapping (mk_client "k" "u") none none none
      none none "English" 1 [] ⟨401, "", .null⟩
      (by decide) (by decide)).2.1 rfl
  · exact (get_hadiths_status_code_mapping (mk_client "k" "u") none none none
      none none "English" 1 [] ⟨500, "", .null⟩
      (by decide) (by decide)).2.2.2.2.2.1 (by decide)
  · exact ((get_hadiths_status_code_mapping (mk_client "k" "u") none none none
      none none "English" 1 [] ⟨403, "forbidden", .null⟩
      (by decide) (by decide)).2.2.2.2.2.2 (by decide) (by decide) (by decide)
      (by decide) (by decide) (by decide)).1

/-- C3: the outgoing body contains each of the five optional filters iff
the caller supplied it (when the extra keyword arguments do not touch that
key), always contains `language` and `maxLimit` (with their argument
values when the extras do not override them), and the extras are merged
last, so on a key collision the extra pair's (last) value wins. -/
theorem build_params_body_spec
    (book hadith_number narrator category authenticity : Option String)
    (language : String) (max_limit : Int) (kwargs : List (String × Json)) :
    ("book" ∉ kwargs.map Prod.fst →
      dget (build_params book hadith_number narrator category authenticity
        language max_limit kwargs) "book" = book.map Json.str) ∧
    ("hadithNumber" ∉ kwargs.map Prod.fst →
      dget (build_params book hadith_number narrator category authenticity
        language max_limit kwargs) "hadithNumber" =
        hadith_number.map Json.str) ∧
    ("narrator" ∉ kwargs.map Prod.fst →
      dget (build_params book hadith_number narrator category authenticity
        language max_limit kwargs) "narrator" = narrator.map Json.str) ∧
    ("category" ∉ kwargs.map Prod.fst →
      dget (build_params book hadith_number narrator category authenticity
        language max_limit kwargs) "category" = category.map Json.str) ∧
    ("authenticity" ∉ kwargs.map Prod.fst →
      dget (build_params book hadith_number narrator category authenticity
        language max_limit kwargs) "authenticity" =
        authenticity.map Json.str) ∧
    (dget (build_params book hadith_number narrator category authenticity
      language max_limit kwargs) "language").isSome = true ∧
    (dget (build_params book hadith_number narrator category authenticity
      language max_limit kwargs) "maxLimit").isSome = true ∧
    ("language" ∉ kwargs.map Prod.fst →
      dget (build_params book hadith_number narrator category authenticity
        language max_limit kwargs) "language" = some (.str language)) ∧
    ("maxLimit" ∉ kwargs.map Prod.fst →
      dget (build_params book hadith_number narrator category authenticity
        language max_limit kwargs) "maxLimit" = some (.num max_limit)) ∧
    (∀ key v, lastLookup kwargs key = some v →
      dget (build_params book hadith_number narrator category authenticity
        language max_limit kwargs) key = some v) := by
  refine ⟨fun h => ?_, fun h => ?_, fun h => ?_, fun h => ?_, fun h => ?_,
    ?_, ?_, fun h => ?_, fun h => ?_, fun key v hv => ?_⟩
  · unfold build_params
    rw [dget_dupdate, lastLookup_eq_none_of_not_mem kwargs _ h]
    simpa using dget_named_params_book book hadith_number narrator category
      authenticity language max_limit
  · unfold build_params
    rw [dget_dupdate, lastLookup_eq_none_of_not_mem kwargs _ h]
    simpa using dget_named_params_hadithNumber book hadith_number narrator
      category authenticity language max_limit
  · unfold build_params
    rw [dget_dupdate, lastLookup_eq_none_of_not_mem kwargs _ h]
    simpa using dget_named_params_narrator book hadith_number narrator
      category authenticity language max_limit
  · unfold build_params
    rw [dget_dupdate, lastLookup_eq_none_of_not_mem kwargs _ h]
    simpa using dget_named_params_category book hadith_number narrator
      category authenticity language max_limit
  · unfold build_params
    rw [dget_dupdate, lastLookup_eq_none_of_not_mem kwargs _ h]
    simpa using dget_named_params_authenticity book hadith_number narrator
      category authenticity language max_limit
  · unfold build_params
    rw [dget_dupdate]
    rcases h : lastLookup kwargs "language" with _ | v
    · simp [dget_named_params_language]
    · simp
  · unfold build_params
    rw [dget_dupdate]
    rcases h : lastLookup kwargs "maxLimit" with _ | v
    · simp [dget_named_params_maxLimit]
    · simp
  · unfold build_params
    rw [dget_dupdate, lastLookup_eq_none_of_not_mem kwargs _ h]
    simpa using dget_named_params_language book hadith_number narrator
      category authenticity language max_limit
  · unfold build_params
    rw [dget_dupdate, lastLookup_eq_none_of_not_mem kwargs _ h]
    simpa using dget_named_params_maxLimit book hadith_number narrator
      category authenticity language max_limit
  · unfold build_params
    rw [dget_dupdate, hv]

/-- Witness for C3: a supplied `book` filter appears in the body, and an
extra keyword argument colliding with `language` overrides it. -/
theorem build_params_body_spec_witness :
    dget (build_params (some "Sahih al-Bukhari") none none none none
      "English" 1 [("language", Json.str "Arabic")]) "book" =
        some (.str "Sahih al-Bukhari") ∧
    dget (build_params (some "Sahih al-Bukhari") none none none none
      "English" 1 [("language", Json.str "Arabic")]) "language" =
        some (.str "Arabic") := by
  refine ⟨?_, ?_⟩
  · exact (build_params_body_spec (some "Sahih al-Bukhari") none none none
      none "English" 1 [("language", Json.str "Arabic")]).1 (by decide)
  · exact (build_params_body_spec (some "Sahih al-Bukhari") none none none
      none "English" 1
      [("language", Json.str "Arabic")]).2.2.2.2.2.2.2.2.2 "language"
      (Json.str "Arabic") rfl

/-- C4: every successful search returns exactly one `Hadith` per JSON
object of the envelope's `data` list, decoded by the fixed field mapping
`Hadith.from_dict`, in the service's order, with no reordering, filtering
or deduplication. -/
theorem get_hadiths_success_decode (c : ImaniroDeenAPIClient)
    (book hadith_number narrator category authenticity : Option String)
    (language : String) (max_limit : Int) (kwargs : List (String × Json))
    (resp : Response) (h1 : 1 ≤ max_limit) (h2 : max_limit ≤ 500)
    (h200 : resp.status_code = 200) :
    (get_hadiths c book hadith_number narrator category authenticity
      language max_limit kwargs (.ok resp)).1 =
      .ok ((APIResponse.from_dict resp.body).data.map Hadith.from_dict) ∧
    (∀ hs, (get_hadiths c book hadith_number narrator category authenticity
        language max_limit kwargs (.ok resp)).1 = .ok hs →
      hs.length = (APIResponse.from_dict resp.body).data.length ∧
      ∀ i (hi : i < (APIResponse.from_dict resp.body).data.length)
        (hi2 : i < hs.length),
        hs.get ⟨i, hi2⟩ =
          Hadith.from_dict
            ((APIResponse.from_dict resp.body).data.get ⟨i, hi⟩)) := by
  have h0 : (get_hadiths c book hadith_number narrator category authenticity
      language max_limit kwargs (.ok resp)).1 =
      .ok ((APIResponse.from_dict resp.body).data.map Hadith.from_dict) := by
    rw [get_hadiths_valid_eq c book hadith_number narrator category
      authenticity language max_limit kwargs (.ok resp) h1 h2]
    rw [make_request_ok_fst, handle_response_200 resp h200]
    rfl
  refine ⟨h0, fun hs hhs => ?_⟩
  rw [h0] at hhs
  have hmap : (APIResponse.from_dict resp.body).data.map Hadith.from_dict
      = hs := by
    simpa using hhs
  subst hmap
  refine ⟨List.length_map _ _, fun i hi hi2 => ?_⟩
  simp [List.get_eq_getElem, List.getElem_map]

/-- Witness for C4 on the spec's example record: a 200 response whose
`data` list holds one record decodes to exactly one `Hadith` with the
matching fields. -/
theorem get_hadiths_success_decode_witness :
    (get_hadiths (mk_client "k" "u") none none none none none "English" 1 []
      (.ok ⟨200, "",
        .obj [("data", .arr [.obj [("book", .str "Sahih al-Bukhari"),
          ("hadithNumber", .str "1"), ("narrator", .str "Umar"),
          ("category", .str "intentions"), ("authenticity", .str "Sahih"),
          ("language", .str "English"), ("text", .str "Actions are...")]])]⟩)).1
      = .ok [⟨some "Sahih al-Bukhari", some "1", some "Umar",
          some "intentions", some "Sahih", some "English",
          some "Actions are..."⟩] := by
  exact (get_hadiths_success_decode (mk_client "k" "u") none none none none
    none "English" 1 []
    ⟨200, "",
      .obj [("data", .arr [.obj [("book", .str "Sahih al-Bukhari"),
        ("hadithNumber", .str "1"), ("narrator", .str "Umar"),
        ("category", .str "intentions"), ("authenticity", .str "Sahih"),
        ("language", .str "English"), ("text", .str "Actions are...")]])]⟩
    (by decide) (by decide) rfl).1

/-- C9: the `[1, 500]` validation applies only to the named `max_limit`
parameter: with `max_limit` in range and the extras binding `maxLimit` to
an out-of-range value, no `ValueError` is raised, the request goes out,
and the body's `maxLimit` is the out-of-range extra value. -/
theorem get_hadiths_kwargs_bypass_validation (c : ImaniroDeenAPIClient)
    (book hadith_number narrator category authenticity : Option String)
    (language : String) (max_limit v : Int)
    (transport : Except String Response)
    (h1 : 1 ≤ max_limit) (h2 : max_limit ≤ 500)
    (_hv : v < 1 ∨ 500 < v) :
    (∀ m, (get_hadiths c book hadith_number narrator category authenticity
      language max_limit [("maxLimit", Json.num v)] transport).1 ≠
        .error (.valueError m)) ∧
    ((get_hadiths c book hadith_number narrator category authenticity
      language max_limit [("maxLimit", Json.num v)] transport).2).length
      = 1 ∧
    dget (build_params book hadith_number narrator category authenticity
      language max_limit [("maxLimit", Json.num v)]) "maxLimit" =
      some (.num v) := by
  have hval := get_hadiths_valid_eq c book hadith_number narrator category
    authenticity language max_limit [("maxLimit", Json.num v)] transport h1 h2
  refine ⟨fun m => ?_, ?_, ?_⟩
  · rw [hval]
    cases transport with
    | error e => simp [make_request, Except.map]
    | ok resp =>
        rw [make_request_ok_fst]
        rcases h : handle_response resp with e | j
        · have : e ≠ .valueError m := by
            intro he
            subst he
            exact handle_response_ne_valueError resp m h
          simp [Except.map, this]
        · simp [Except.map]
  · rw [hval]
    simp [make_request_snd]
  · unfold build_params
    rw [dget_dupdate]
    simp [lastLookup]

/-- Witness for C9 at `max_limit = 1` with extra `maxLimit = 501`. -/
theorem get_hadiths_kwargs_bypass_validation_witness :
    ((get_hadiths (mk_client "k" "u") none none none none none "English" 1
      [("maxLimit", Json.num 501)] (.error "down")).1 ≠
        .error (.valueError "max_limit cannot exceed 500")) ∧
    dget (build_params none none none none none "English" 1
      [("maxLimit", Json.num 501)]) "maxLimit" = some (.num 501) := by
  have h := get_hadiths_kwargs_bypass_validation (mk_client "k" "u") none
    none none none none "English" 1 501 (.error "down") (by decide)
    (by decide) (Or.inr (by decide))
  exact ⟨h.1 "max_limit cannot exceed 500", h.2.2⟩

/-- C6: a transport-level failure during a search request is caught and
re-raised as the generic `DeenAPIError` whose message embeds the original
failure's description, never silently swallowed. -/
theorem get_hadiths_transport_failure (c : ImaniroDeenAPIClient)
    (book hadith_number narrator category authenticity : Option String)
    (language : String) (max_limit : Int) (kwargs : List (String × Json))
    (e : String) (h1 : 1 ≤ max_limit) (h2 : max_limit ≤ 500) :
    (get_hadiths c book hadith_number narrator category authenticity
      language max_limit kwargs (.error e)).1 =
      .error (.deenAPIError ("Request failed: " ++ e)) ∧
    ∃ p q, "Request failed: " ++ e = p ++ e ++ q := by
  refine ⟨?_, ⟨"Request failed: ", "", ?_⟩⟩
  · rw [get_hadiths_valid_eq c book hadith_number narrator category
      authenticity language max_limit kwargs (.error e) h1 h2]
    simp [make_request_error_fst, Except.map]
  · rw [String.append_empty]

/-- Witness for C6 at a concrete transport failure description. -/
theorem get_hadiths_transport_failure_witness :
    (get_hadiths (mk_client "k" "u") none none none none none "English" 1 []
      (.error "Connection refused")).1 =
      .error (.deenAPIError "Request failed: Connection refused") := by
  exact (get_hadiths_transport_failure (mk_client "k" "u") none none none
    none none "English" 1 [] "Connection refused" (by decide) (by decide)).1

/-- C5: `check_status` returns the decoded JSON body verbatim on 200,
fails on any other status with the generic `DeenAPIError` carrying the
numeric status code in its message (never one of the dedicated failures),
and on a transport failure fails with the generic `DeenAPIError` wrapping
the transport failure's description. -/
theorem check_status_spec (c : ImaniroDeenAPIClient) (resp : Response)
    (e : String) :
    (resp.status_code = 200 → check_status c (.ok resp) = .ok resp.body) ∧
    (resp.status_code ≠ 200 →
      check_status c (.ok resp) =
        .error (.deenAPIError
          ("Status check failed: " ++ toString resp.status_code)) ∧
      ∃ p q, "Status check failed: " ++ toString resp.status_code =
        p ++ toString resp.status_code ++ q) ∧
    (check_status c (.error e) =
        .error (.deenAPIError ("Status check request failed: " ++ e)) ∧
      ∃ p q, "Status check request failed: " ++ e = p ++ e ++ q) := by
  refine ⟨fun h => ?_, fun h => ⟨?_, ⟨"Status check failed: ", "", ?_⟩⟩,
    ⟨rfl, ⟨"Status check request failed: ", "", ?_⟩⟩⟩
  · simp [check_status, h]
  · simp [check_status, h]
  · rw [String.append_empty]
  · rw [String.append_empty]

/-- Witness for C5 at a 200 response, a 503 response and a transport
failure. -/
theorem check_status_spec_witness :
    check_status (mk_client "k" "u")
      (.ok ⟨200, "", .obj [("status", .str "ok")]⟩) =
        .ok (.obj [("status", .str "ok")]) ∧
    check_status (mk_client "k" "u") (.ok ⟨503, "oops", .null⟩) =
      .error (.deenAPIError "Status check failed: 503") ∧
    check_status (mk_client "k" "u") (.error "refused") =
      .error (.deenAPIError "Status check request failed: refused") := by
  refine ⟨?_, ?_, ?_⟩
  · exact (check_status_spec (mk_client "k" "u")
      ⟨200, "", .obj [("status", .str "ok")]⟩ "refused").1 rfl
  · exact ((check_status_spec (mk_client "k" "u") ⟨503, "oops", .null⟩
      "refused").2.1 (by decide)).1
  · exact (check_status_spec (mk_client "k" "u") ⟨503, "oops", .null⟩
      "refused").2.2.1

/-- C10: for every non-200 response, the `check_status` error message is
exactly the fixed prefix plus the numeric status code — it contains the
code, and it never incorporates the response body text (two responses
with the same non-200 status but different bodies produce identical
outcomes) — unlike the search path's generic error for unmapped non-200
statuses, whose message contains both the code and the raw body text. -/
theorem check_status_error_omits_body (c : ImaniroDeenAPIClient)
    (resp r1 r2 other : Response)
    (hne : resp.status_code ≠ 200)
    (hr1 : r1.status_code ≠ 200) (hsame : r1.status_code = r2.status_code)
    (h200 : other.status_code ≠ 200) (h401 : other.status_code ≠ 401)
    (h402 : other.status_code ≠ 402) (h404 : other.status_code ≠ 404)
    (h429 : other.status_code ≠ 429) (h500 : other.status_code < 500) :
    (check_status c (.ok resp) =
        .error (.deenAPIError
          ("Status check failed: " ++ toString resp.status_code)) ∧
      ∃ p q, "Status check failed: " ++ toString resp.status_code =
        p ++ toString resp.status_code ++ q) ∧
    check_status c (.ok r1) = check_status c (.ok r2) ∧
    (handle_response other =
        .error (.deenAPIError
          ("API error: " ++ toString other.status_code ++ " - " ++
            other.text)) ∧
      (∃ p q, "API error: " ++ toString other.status_code ++ " - " ++
        other.text = p ++ toString other.status_code ++ q) ∧
      (∃ p q, "API error: " ++ toString other.status_code ++ " - " ++
        other.text = p ++ other.text ++ q)) := by
  have hr2 : r2.status_code ≠ 200 := hsame ▸ hr1
  refine ⟨⟨?_, ⟨"Status check failed: ", "", ?_⟩⟩, ?_,
    handle_response_other other h200 h401 h402 h404 h429 h500,
    ⟨"API error: ", " - " ++ other.text, ?_⟩,
    ⟨"API error: " ++ toString other.status_code ++ " - ", "", ?_⟩⟩
  · simp [check_status, hne]
  · rw [String.append_empty]
  · simp [check_status, hr1, hr2, hsame]
  · rw [String.append_assoc]
  · rw [String.append_empty]

/-- Witness for C10: status 503 with two different bodies yields the same
message "Status check failed: 503" without the body, while the search
path's unmapped 403 message carries the body "forbidden". -/
theorem check_status_error_omits_body_witness :
    check_status (mk_client "k" "u") (.ok ⟨503, "internal oops", .null⟩) =
      .error (.deenAPIError "Status check failed: 503") ∧
    check_status (mk_client "k" "u") (.ok ⟨503, "internal oops", .null⟩) =
      check_status (mk_client "k" "u") (.ok ⟨503, "other body", .bool true⟩) ∧
    handle_response ⟨403, "forbidden", .null⟩ =
      .error (.deenAPIError "API error: 403 - forbidden") := by
  have h := check_status_error_omits_body (mk_client "k" "u")
    ⟨503, "internal oops", .null⟩ ⟨503, "internal oops", .null⟩
    ⟨503, "other body", .bool true⟩ ⟨403, "forbidden", .null⟩
    (by decide) (by decide) rfl (by decide) (by decide) (by decide)
    (by decide) (by decide) (by decide)
  exact ⟨h.1.1, h.2.1, h.2.2.1⟩

/-- C8: construction stores the API key and the base URL with trailing
slashes stripped (the stored URL ends in no slash and the original URL is
the stored one plus some trailing slashes), the default production URL is
used when none is given, and neither search nor status checking changes
the client value. -/
theorem client_configuration_immutable (api_key base_url : String)
    (c : ImaniroDeenAPIClient)
    (book hadith_number narrator category authenticity : Option String)
    (language : String) (max_limit : Int) (kwargs : List (String × Json))
    (t1 t2 : Except String Response) :
    (mk_client api_key base_url).api_key = api_key ∧
    (mk_client api_key base_url).base_url = rstrip_slash base_url ∧
    (∃ n, base_url.data =
      (mk_client api_key base_url).base_url.data ++ List.replicate n '/') ∧
    (∀ ch, (mk_client api_key base_url).base_url.data.getLast? = some ch →
      ch ≠ '/') ∧
    mk_client_default api_key = mk_client api_key default_base_url ∧
    (get_hadiths_method c book hadith_number narrator category authenticity
      language max_limit kwargs t1).2 = c ∧
    (check_status_method c t2).2 = c := by
  exact ⟨rfl, rfl, ⟨_, (rstrip_slash_recover base_url).symm⟩,
    rstrip_slash_no_trailing base_url, rfl, rfl, rfl⟩

end DeenApi
